import Mathlib

/-!
Verification of the hidden-payment-channels core: the cumulative
payment-ticket protocol implemented by

* `contracts/contracts/HiddenPaymentChannels.sol` — the on-chain vault
  (`top_up`, `claim_ticket`, `verify_signature`);
* the host service routes (`createRoutes`): the ticket issuer
  (`POST /ticket/generate`), the validator (`verifyTicket`,
  `POST /ticket/validate`) and the settlement endpoint
  (`POST /ticket/claim`), together with the `userNonce`/`hostNonce`
  module state and its initialization from the chain.

Modelling choices, used throughout:

* Ethereum addresses are natural numbers (the 160-bit value of the hex
  string); token amounts and nonces on the chain side are `Nat`
  (uint256, with Solidity 0.8 checked arithmetic made explicit where an
  addition could overflow); the service side uses `Int` for its
  JavaScript `bigint` values.
* `keccak256` is idealized as an injective (collision-free) function on
  byte strings — the standard symbolic model of a cryptographic hash.
* ECDSA signing/recovery (`signingKey.sign` / `recoverAddress` /
  OpenZeppelin `ECDSA.recover`) is idealized symbolically: a signature
  remembers the key and the exact hash that was signed; recovery
  returns the signer's address exactly on that hash and address `0`
  (which is no key's address) on any other hash — i.e. no forgeries
  and no collisions.
* The WETH token is the standard ERC20 state machine: balance and
  allowance maps, `transfer`/`transferFrom` succeed exactly when the
  balance (and allowance) suffice.
-/

/-- Big-endian, fixed-width byte encoding of a natural number on `w`
bytes: the `abi.encodePacked` / ethers `solidityPacked` encoding of
`uintN` and `address` values. -/
def beBytes : Nat → Nat → List Nat
  | 0, _ => []
  | w + 1, n => beBytes w (n / 256) ++ [n % 256]

/-- Byte view of a string (ethers `toUtf8Bytes`), modelled as the list
of character code points. -/
def utf8Bytes (s : String) : List Nat := s.data.map Char.toNat

/-- Idealized `keccak256`: an injective (collision-free) function on
byte strings, the standard symbolic idealization of a cryptographic
hash function. -/
def keccak256 (bs : List Nat) : List Nat := bs

/-- The Ethereum address derived from a signing key
(`signingWallet.address`). Idealized: injective in the key and never
`0`, so it can never coincide with the failure value of signature
recovery. -/
def addressOfKey (k : Nat) : Nat := k + 1

/-- A symbolic ECDSA signature: it records which key signed which
hash. -/
structure Signature where
  key : Nat
  signedHash : List Nat
  deriving DecidableEq, Repr

/-- Sign a raw 32-byte digest with no Ethereum signed-message
prefixing (`signingWallet.signingKey.sign(messageHash)`). -/
def signHash (k : Nat) (h : List Nat) : Signature := ⟨k, h⟩

/-- Idealized public-key recovery (ethers `recoverAddress`,
OpenZeppelin `ECDSA.recover`): yields the signer's address exactly when
the signature was produced over this digest, and `0` (no key's
address) otherwise. -/
def recoverAddress (h : List Nat) (sig : Signature) : Nat :=
  if sig.signedHash = h then addressOfKey sig.key else 0

/-- The packed message of the issuer
(`solidityPackedKeccak256(["bytes32","uint256","uint256","address"],
[keccak256(toUtf8Bytes(ticket.toRailgunAddress)), ticket.amount,
ticket.nonce, ticket.hiddenPaymentChannelsContractAddress])` in the
generate handler). -/
def issuerPackedMessage (payee : String) (amount nonce vaultAddr : Nat) : List Nat :=
  keccak256 (utf8Bytes payee) ++ beBytes 32 amount ++ beBytes 32 nonce ++ beBytes 20 vaultAddr

/-- The digest the issuer signs. -/
def issuerMessageHash (payee : String) (amount nonce vaultAddr : Nat) : List Nat :=
  keccak256 (issuerPackedMessage payee amount nonce vaultAddr)

/-- The packed message recomputed by the validator (`verifyTicket`),
transliterated from its own `solidityPackedKeccak256` call. -/
def validatorPackedMessage (payee : String) (amount nonce vaultAddr : Nat) : List Nat :=
  keccak256 (utf8Bytes payee) ++ beBytes 32 amount ++ beBytes 32 nonce ++ beBytes 20 vaultAddr

/-- The digest the validator checks the signature against. -/
def validatorMessageHash (payee : String) (amount nonce vaultAddr : Nat) : List Nat :=
  keccak256 (validatorPackedMessage payee amount nonce vaultAddr)

/-- The packed message of the vault:
`abi.encodePacked(keccak256(toRailgunAddress), amount, nonce,
address(this))` in `verify_signature`. -/
def contractPackedMessage (toRailgunAddress : String) (amount nonce self : Nat) : List Nat :=
  keccak256 (utf8Bytes toRailgunAddress) ++ beBytes 32 amount ++ beBytes 32 nonce ++ beBytes 20 self

/-- The digest the vault recovers the signer from
(`keccak256(abi.encodePacked(...))`). -/
def contractMessageHash (toRailgunAddress : String) (amount nonce self : Nat) : List Nat :=
  keccak256 (contractPackedMessage toRailgunAddress amount nonce self)

/-- ERC20 token state: balance map and allowance map
(`allowances owner spender`). -/
structure TokenState where
  balances : Nat → Nat
  allowances : Nat → Nat → Nat

/-- Point update of a balance map. -/
def setBal (b : Nat → Nat) (a v : Nat) : Nat → Nat :=
  fun x => if x = a then v else b x

/-- ERC20 `transfer(dest, amount)` sent by `source`: succeeds exactly
when the balance suffices, updating the two balances sequentially as
the reference implementation does. -/
def erc20Transfer (tok : TokenState) (source dest amount : Nat) : Option TokenState :=
  if amount ≤ tok.balances source then
    let b1 := setBal tok.balances source (tok.balances source - amount)
    some { tok with balances := setBal b1 dest (b1 dest + amount) }
  else none

/-- ERC20 `transferFrom(source, dest, amount)` called by `spender`:
succeeds exactly when both the balance and the allowance suffice. -/
def erc20TransferFrom (tok : TokenState) (spender source dest amount : Nat) : Option TokenState :=
  if amount ≤ tok.balances source ∧ amount ≤ tok.allowances source spender then
    let b1 := setBal tok.balances source (tok.balances source - amount)
    some { balances := setBal b1 dest (b1 dest + amount)
           allowances := fun o s =>
             if o = source ∧ s = spender then tok.allowances source spender - amount
             else tok.allowances o s }
  else none

/-- The bound `2 ^ 256`: Solidity 0.8 reverts when a `uint256`
addition reaches it (checked arithmetic). -/
def UINT256_MOD : Nat := 2 ^ 256

/-- The hardcoded caller allowed to claim tickets
(`RAILGUN_ADAPT_ADDRESS` constant of the contract). -/
def RAILGUN_ADAPT_ADDRESS : Nat := 0x7e3d929EbD5bDC84d02Bd3205c777578f33A214D

/-- The storage of one deployed `HiddenPaymentChannels` contract,
plus `address(this)`. -/
structure VaultState where
  selfAddress : Nat
  toRailgunAddress : String
  ticketSignerAddress : Nat
  totalAmountFunded : Nat
  totalAmountWithdrawn : Nat
  lastTicketNonce : Nat

/-- The on-chain world the contract acts on: its own storage and the
WETH token state. -/
structure ChainState where
  vault : VaultState
  weth : TokenState

/-- The contract's revert reasons, one constructor per `require`
message (`overflow` is the Solidity 0.8 checked-arithmetic panic). -/
inductive VaultError
  /-- The revert string is "invalid signature". -/
  | invalidSignature
  /-- The revert string is "only RAILGUN_ADAPT_ADDRESS can claim ticket". -/
  | onlyRailgunAdapt
  /-- The revert string is "insufficient balance". -/
  | insufficientBalance
  /-- The revert string is "invalid nonce". -/
  | invalidNonce
  /-- The revert string is "transfer failed". -/
  | transferFailed
  /-- arithmetic overflow panic -/
  | overflow
  deriving DecidableEq, Repr

/-- The contract's `verify_signature(amount, nonce, signature)`:
recompute the ticket
digest and compare the recovered signer with `ticketSignerAddress`. -/
def verify_signature (v : VaultState) (amount nonce : Nat) (sig : Signature) : Bool :=
  decide (recoverAddress (contractMessageHash v.toRailgunAddress amount nonce v.selfAddress) sig
    = v.ticketSignerAddress)

/-- The contract's `top_up(amount)`: pull `amount` WETH from the caller into the
contract, then `totalAmountFunded += amount`. A returned `.error` is a
revert: the caller's state is discarded wholesale. -/
def top_up (c : ChainState) (sender amount : Nat) : Except VaultError ChainState :=
  match erc20TransferFrom c.weth c.vault.selfAddress sender c.vault.selfAddress amount with
  | none => .error .transferFailed
  | some weth' =>
    if c.vault.totalAmountFunded + amount < UINT256_MOD then
      .ok { vault := { c.vault with totalAmountFunded := c.vault.totalAmountFunded + amount }
            weth := weth' }
    else .error .overflow

/-- The contract's `claim_ticket(amount, nonce, signature)` called by `sender`: the
four `require` checks in contract order, then the WETH payout and the
storage updates. -/
def claim_ticket (c : ChainState) (sender amount nonce : Nat) (sig : Signature) :
    Except VaultError ChainState :=
  if verify_signature c.vault amount nonce sig = false then
    .error .invalidSignature
  else if sender ≠ RAILGUN_ADAPT_ADDRESS then
    .error .onlyRailgunAdapt
  else if ¬ amount ≤ c.weth.balances c.vault.selfAddress then
    .error .insufficientBalance
  else if ¬ c.vault.lastTicketNonce < nonce then
    .error .invalidNonce
  else
    match erc20Transfer c.weth c.vault.selfAddress sender amount with
    | none => .error .transferFailed
    | some weth' =>
      if c.vault.totalAmountWithdrawn + amount < UINT256_MOD then
        .ok { vault := { c.vault with
                totalAmountWithdrawn := c.vault.totalAmountWithdrawn + amount
                lastTicketNonce := nonce }
              weth := weth' }
      else .error .overflow

/-- Did a contract call succeed (not revert)? -/
def vaultCallOk {α : Type} : Except VaultError α → Bool
  | .ok _ => true
  | .error _ => false

/-- The nonce stored after a claim call, when the call succeeded. -/
def claimResultNonce (r : Except VaultError ChainState) : Option Nat :=
  match r with
  | .ok c => some c.vault.lastTicketNonce
  | .error _ => none

/-- One invocation of a contract entry point. -/
inductive VaultOp
  | topUpOp (sender amount : Nat)
  | claimOp (sender amount nonce : Nat) (sig : Signature)

/-- Execute one entry-point invocation; a reverted call leaves the
chain state unchanged. -/
def execVaultOp (c : ChainState) : VaultOp → ChainState
  | .topUpOp sender amount =>
    match top_up c sender amount with
    | .ok c' => c'
    | .error _ => c
  | .claimOp sender amount nonce sig =>
    match claim_ticket c sender amount nonce sig with
    | .ok c' => c'
    | .error _ => c

/-- Execute a sequence of entry-point invocations: the vault's
lifetime after `c`. -/
def execVaultOps (c : ChainState) (ops : List VaultOp) : ChainState :=
  ops.foldl execVaultOp c

/-- An unsigned ticket (`Ticket` in `types.ts`). `nonce` and `amount`
are JavaScript bigints, hence `Int`; the contract address is an
Ethereum address. -/
structure Ticket where
  toRailgunAddress : String
  nonce : Int
  amount : Int
  hiddenPaymentChannelsContractAddress : Nat
  deriving DecidableEq, Repr

/-- A signed ticket (`ClaimableTicket extends Ticket`). -/
structure ClaimableTicket extends Ticket where
  signature : Signature
  deriving DecidableEq, Repr

/-- The fixed data `createRoutes` closes over: the host's railgun
address (`hostRailgunInfo.address`), the deployed contract's address,
the ticket-signing wallet's key, and `TICKET_COST` from the
environment. -/
structure ServerConfig where
  hostRailgunAddress : String
  hpcContractAddress : Nat
  signingKey : Nat
  ticketCost : Int

/-- The signing wallet's address (`signingWallet.address`). -/
def signerAddress (cfg : ServerConfig) : Nat := addressOfKey cfg.signingKey

/-- The module-level mutable state of the routes file: the two
cached on-chain nonces. -/
structure ServerState where
  userNonce : Int
  hostNonce : Int
  deriving DecidableEq, Repr

/-- At the top of `createRoutes`:
`hostNonce = latestNonce; userNonce = latestNonce`. -/
def initServerState (latestNonce : Int) : ServerState :=
  { userNonce := latestNonce, hostNonce := latestNonce }

/-- At startup, `main` reads `latestNonce` from `hpcContract.lastTicketNonce()`
from the chain and hands it to `createRoutes`. -/
def startupServerState (v : VaultState) : ServerState :=
  initServerState (v.lastTicketNonce : Int)

/-- Rejection reasons of `verifyTicket`, one constructor per error
string of the code, in source order. -/
inductive VerifyError
  /-- The error string is "ticket is required". -/
  | missingTicket
  /-- The error string is "ticket is outdated". -/
  | outdatedSequence
  /-- The error string is "ticket is not for the host". -/
  | wrongPayee
  /-- The error string is "ticket is not for the hidden payments contract". -/
  | wrongVault
  /-- The error string is "ticket is not for the correct amount". -/
  | amountBelowFloor
  /-- The error string is "ticket is not signed by the correct wallet". -/
  | badSignature
  deriving DecidableEq, Repr

/-- The routes file's `verifyTicket(ticket)`: the local validation
chain of checks, in source order. (The digest is only recomputed after
the floor check has ensured `amount` and `nonce` are nonnegative, so
the `Int.toNat` views are exact at every reachable hashing site.) -/
def verifyTicket (cfg : ServerConfig) (st : ServerState) :
    Option ClaimableTicket → Except VerifyError Unit
  | none => .error .missingTicket
  | some t =>
    if t.nonce < st.hostNonce then .error .outdatedSequence
    else if t.toRailgunAddress ≠ cfg.hostRailgunAddress then .error .wrongPayee
    else if t.hiddenPaymentChannelsContractAddress ≠ cfg.hpcContractAddress then .error .wrongVault
    else if t.amount < cfg.ticketCost then .error .amountBelowFloor
    else if recoverAddress
        (validatorMessageHash t.toRailgunAddress t.amount.toNat t.nonce.toNat
          t.hiddenPaymentChannelsContractAddress)
        t.signature ≠ signerAddress cfg then .error .badSignature
    else .ok ()

/-- The `POST /ticket/generate` handler body: compute the next nonce
and the cumulative amount, sign the digest, increment `userNonce`. -/
def generateTicket (cfg : ServerConfig) (st : ServerState) : ClaimableTicket × ServerState :=
  let unclaimedTickets : Int := st.userNonce - st.hostNonce
  let newNonce0 : Int := if unclaimedTickets = 0 then st.userNonce else st.userNonce + 1
  let newNonce : Int := if newNonce0 = 0 then newNonce0 + 1 else newNonce0
  let ticket : Ticket :=
    { toRailgunAddress := cfg.hostRailgunAddress
      nonce := newNonce
      amount := cfg.ticketCost + cfg.ticketCost * unclaimedTickets
      hiddenPaymentChannelsContractAddress := cfg.hpcContractAddress }
  let msgHash := issuerMessageHash ticket.toRailgunAddress ticket.amount.toNat ticket.nonce.toNat
    ticket.hiddenPaymentChannelsContractAddress
  (⟨ticket, signHash cfg.signingKey msgHash⟩, { st with userNonce := st.userNonce + 1 })

/-- The `POST /ticket/validate` handler: run `verifyTicket`, answer
`{valid:true}` or a 400 error; the module state is untouched. -/
def validateTicketHandler (cfg : ServerConfig) (st : ServerState)
    (t : Option ClaimableTicket) : Except VerifyError Unit × ServerState :=
  (verifyTicket cfg st t, st)

/-- The `POST /ticket/claim` handler's outcome. -/
inductive ClaimResponse
  /-- The 200 response reporting a successful claim. -/
  | ok
  /-- The 400 response: `verifyTicket` rejected the ticket. -/
  | validationError (e : VerifyError)
  /-- The 500 response: the awaited on-chain settlement action threw. -/
  | settlementFailed
  deriving DecidableEq, Repr

/-- The `POST /ticket/claim` handler: validate, run the external
settlement action `claim_ticket(hostClearnetWallet, ...)` (whether that
awaited action resolves is the parameter `settlementOk`), and on
success set both cached nonces to the claimed ticket's nonce. -/
def claimTicketHandler (cfg : ServerConfig) (st : ServerState) :
    Option ClaimableTicket → Bool → ClaimResponse × ServerState
  | none, _ => (.validationError .missingTicket, st)
  | some tk, settlementOk =>
    match verifyTicket cfg st (some tk) with
    | .error e => (.validationError e, st)
    | .ok _ =>
      if settlementOk then
        (.ok, { userNonce := tk.nonce, hostNonce := tk.nonce })
      else (.settlementFailed, st)

/-- One request served by the routes. -/
inductive ServerOp
  | genOp
  | validateOp (t : Option ClaimableTicket)
  | claimReqOp (t : Option ClaimableTicket) (settlementOk : Bool)

/-- The module state after serving one request. -/
def execServerOp (cfg : ServerConfig) (st : ServerState) : ServerOp → ServerState
  | .genOp => (generateTicket cfg st).2
  | .validateOp t => (validateTicketHandler cfg st t).2
  | .claimReqOp t settlementOk => (claimTicketHandler cfg st t settlementOk).2

/-- The module state after serving a sequence of requests. -/
def execServerOps (cfg : ServerConfig) (st : ServerState) (ops : List ServerOp) : ServerState :=
  ops.foldl (execServerOp cfg) st

/-- The issuer state with settled sequence `s` and nothing
outstanding: both cached nonces equal `s` (the state right after
startup, or right after an observed successful claim of nonce `s`). -/
def settledState (s : Nat) : ServerState :=
  { userNonce := (s : Int), hostNonce := (s : Int) }

/-- The issuer state after `k` further `generate` calls. -/
def genIter (cfg : ServerConfig) (st : ServerState) : Nat → ServerState
  | 0 => st
  | k + 1 => (generateTicket cfg (genIter cfg st k)).2

/-- The validator's freshness check, as a predicate: the ticket's nonce
is not below the cached `hostNonce`. -/
def freshEnough (st : ServerState) (t : ClaimableTicket) : Prop :=
  ¬ t.nonce < st.hostNonce

/-- The validator's payee check, as a predicate. -/
def payeeMatches (cfg : ServerConfig) (t : ClaimableTicket) : Prop :=
  t.toRailgunAddress = cfg.hostRailgunAddress

/-- The validator's vault check, as a predicate. -/
def vaultMatches (cfg : ServerConfig) (t : ClaimableTicket) : Prop :=
  t.hiddenPaymentChannelsContractAddress = cfg.hpcContractAddress

/-- The validator's amount-floor check, as a predicate: the amount is
not below `TICKET_COST`. -/
def meetsFloor (cfg : ServerConfig) (t : ClaimableTicket) : Prop :=
  ¬ t.amount < cfg.ticketCost

/-- The validator's signature check, as a predicate. -/
def signatureOk (cfg : ServerConfig) (t : ClaimableTicket) : Prop :=
  recoverAddress
    (validatorMessageHash t.toRailgunAddress t.amount.toNat t.nonce.toNat
      t.hiddenPaymentChannelsContractAddress)
    t.signature = signerAddress cfg

/-- The basic well-formedness of the cached nonces: nonnegative, and
`userNonce` never behind `hostNonce`. -/
def ServerInv (st : ServerState) : Prop :=
  0 ≤ st.hostNonce ∧ st.hostNonce ≤ st.userNonce

/-- The balance map after moving `amount` from `source` to `dest`. -/
def movedBal (b : Nat → Nat) (source dest amount : Nat) : Nat → Nat :=
  let b1 := setBal b source (b source - amount)
  setBal b1 dest (b1 dest + amount)

deriving instance DecidableEq for Except

/-- The host's railgun address of the concrete example. -/
def exHostAddress : String := "0zk-host"

/-- A different railgun address, for mismatch scenarios. -/
def exOtherAddress : String := "0zk-other"

/-- The example service configuration: cost 300 per request, signing
key 5, deployed vault at address `0xabc1`. -/
def exCfg : ServerConfig :=
  { hostRailgunAddress := exHostAddress
    hpcContractAddress := 0xabc1
    signingKey := 5
    ticketCost := 300 }

/-- The matching example vault storage, freshly deployed and funded
with 1000 units. -/
def exVault : VaultState :=
  { selfAddress := 0xabc1
    toRailgunAddress := exHostAddress
    ticketSignerAddress := addressOfKey 5
    totalAmountFunded := 1000
    totalAmountWithdrawn := 0
    lastTicketNonce := 0 }

/-- The example WETH state: the vault holds 1000 units. -/
def exToken : TokenState :=
  { balances := setBal (fun _ => 0) 0xabc1 1000
    allowances := fun _ _ => 0 }

/-- The example on-chain world. -/
def exChain : ChainState := { vault := exVault, weth := exToken }

/-- The first, second and third tickets generated from the fresh state
with no intervening claim. -/
def exTicket1 : ClaimableTicket := (generateTicket exCfg (settledState 0)).1

/-- See `exTicket1`. -/
def exTicket2 : ClaimableTicket := (generateTicket exCfg (genIter exCfg (settledState 0) 1)).1

/-- See `exTicket1`. -/
def exTicket3 : ClaimableTicket := (generateTicket exCfg (genIter exCfg (settledState 0) 2)).1

/-- The on-chain world after the third ticket has been claimed. -/
def exChainAfterClaim : ChainState :=
  execVaultOp exChain (.claimOp RAILGUN_ADAPT_ADDRESS 900 3 exTicket3.signature)

/-- A copy of `exTicket3` with its payee replaced by a different railgun
address. -/
def exWrongPayeeTicket : ClaimableTicket :=
  { exTicket3 with toRailgunAddress := exOtherAddress }

/-- A WETH state where caller `0x55` holds 500 units and has approved
the vault to spend them, on top of the vault's own 1000. -/
def exTokenApproved : TokenState :=
  { balances := setBal (setBal (fun _ => 0) 0xabc1 1000) 0x55 500
    allowances := fun o s => if o = 0x55 ∧ s = 0xabc1 then 500 else 0 }

/-- The example chain with the approved funder. -/
def exChainApproved : ChainState := { vault := exVault, weth := exTokenApproved }

/-- The chain after the funder tops the vault up with 200 units. -/
def exChainToppedUp : ChainState := execVaultOp exChainApproved (.topUpOp 0x55 200)

/-! ## Lemmas about the embedding -/

theorem beBytes_length (w n : Nat) : (beBytes w n).length = w := by
  induction w generalizing n with
  | zero => rfl
  | succ w ih => simp [beBytes, ih]

theorem beBytes_inj {w n m : Nat} (hn : n < 256 ^ w) (hm : m < 256 ^ w)
    (h : beBytes w n = beBytes w m) : n = m := by
  induction w generalizing n m with
  | zero =>
    simp [Nat.pow_zero, Nat.lt_one_iff] at hn hm
    omega
  | succ w ih =>
    simp only [beBytes] at h
    have hlen : (beBytes w (n / 256)).length = (beBytes w (m / 256)).length := by
      simp [beBytes_length]
    obtain ⟨h1, h2⟩ := List.append_inj h hlen
    have hdn : n / 256 < 256 ^ w := by
      rw [Nat.div_lt_iff_lt_mul (by norm_num)]
      calc n < 256 ^ (w + 1) := hn
        _ = 256 ^ w * 256 := by rw [Nat.pow_succ]
    have hdm : m / 256 < 256 ^ w := by
      rw [Nat.div_lt_iff_lt_mul (by norm_num)]
      calc m < 256 ^ (w + 1) := hm
        _ = 256 ^ w * 256 := by rw [Nat.pow_succ]
    have hdiv := ih hdn hdm h1
    have hmod : n % 256 = m % 256 := by simpa using h2
    omega

theorem utf8Bytes_inj {s t : String} (h : utf8Bytes s = utf8Bytes t) : s = t := by
  unfold utf8Bytes at h
  have hchar : Function.Injective Char.toNat := by
    intro a b hab
    have := congrArg Char.ofNat hab
    rwa [Char.ofNat_toNat, Char.ofNat_toNat] at this
  have hdata : s.data = t.data := List.map_injective_iff.mpr hchar h
  cases s; cases t; exact congrArg String.mk hdata

theorem keccak256_inj {a b : List Nat} (h : keccak256 a = keccak256 b) : a = b := h

theorem addressOfKey_inj {a b : Nat} (h : addressOfKey a = addressOfKey b) : a = b := by
  simpa [addressOfKey] using h

theorem addressOfKey_ne_zero (k : Nat) : addressOfKey k ≠ 0 := by
  simp [addressOfKey]

/-- Recovery of a genuine signature over the same digest succeeds. -/
theorem recoverAddress_signHash (k : Nat) (h : List Nat) :
    recoverAddress h (signHash k h) = addressOfKey k := by
  simp [recoverAddress, signHash]

/-- Recovery over any other digest never yields a key's address. -/
theorem recoverAddress_ne_of_hash_ne (k k' : Nat) {h h' : List Nat} (hne : h ≠ h') :
    recoverAddress h' (signHash k h) ≠ addressOfKey k' := by
  simp only [recoverAddress, signHash]
  rw [if_neg hne]
  exact fun h0 => addressOfKey_ne_zero k' h0.symm

theorem issuer_eq_validator_message (p : String) (a n v : Nat) :
    issuerMessageHash p a n v = validatorMessageHash p a n v := rfl

theorem validator_eq_contract_message (p : String) (a n v : Nat) :
    validatorMessageHash p a n v = contractMessageHash p a n v := rfl

/-- The packed encoding is injective on in-range field values: the
suffix of every packed message has the fixed width 32 + 32 + 20 bytes,
so the four fields can be recovered from the byte string. -/
theorem contractPackedMessage_inj {p p' : String} {a n v a' n' v' : Nat}
    (ha : a < 2 ^ 256) (hn : n < 2 ^ 256) (hv : v < 2 ^ 160)
    (ha' : a' < 2 ^ 256) (hn' : n' < 2 ^ 256) (hv' : v' < 2 ^ 160)
    (h : contractPackedMessage p a n v = contractPackedMessage p' a' n' v') :
    p = p' ∧ a = a' ∧ n = n' ∧ v = v' := by
  have h256 : (2 : Nat) ^ 256 = 256 ^ 32 := by
    show (2 : Nat) ^ 256 = (2 ^ 8) ^ 32
    rw [← Nat.pow_mul]
  have h160 : (2 : Nat) ^ 160 = 256 ^ 20 := by
    show (2 : Nat) ^ 160 = (2 ^ 8) ^ 20
    rw [← Nat.pow_mul]
  unfold contractPackedMessage keccak256 at h
  rw [List.append_assoc, List.append_assoc, List.append_assoc, List.append_assoc] at h
  obtain ⟨hp, hrest⟩ := List.append_inj' h (by simp [beBytes_length])
  obtain ⟨ha32, hrest2⟩ := List.append_inj hrest (by simp [beBytes_length])
  obtain ⟨hn32, hv20⟩ := List.append_inj hrest2 (by simp [beBytes_length])
  refine ⟨utf8Bytes_inj hp, ?_, ?_, ?_⟩
  · exact beBytes_inj (h256 ▸ ha) (h256 ▸ ha') ha32
  · exact beBytes_inj (h256 ▸ hn) (h256 ▸ hn') hn32
  · exact beBytes_inj (h160 ▸ hv) (h160 ▸ hv') hv20

/-- The digest is injective on in-range field values (idealized
collision-free `keccak256`). -/
theorem contractMessageHash_inj {p p' : String} {a n v a' n' v' : Nat}
    (ha : a < 2 ^ 256) (hn : n < 2 ^ 256) (hv : v < 2 ^ 160)
    (ha' : a' < 2 ^ 256) (hn' : n' < 2 ^ 256) (hv' : v' < 2 ^ 160)
    (h : contractMessageHash p a n v = contractMessageHash p' a' n' v') :
    p = p' ∧ a = a' ∧ n = n' ∧ v = v' :=
  contractPackedMessage_inj ha hn hv ha' hn' hv' (keccak256_inj h)

theorem claim_ticket_ok_lastTicketNonce {c : ChainState} {sender amount nonce : Nat}
    {sig : Signature} {c' : ChainState}
    (h : claim_ticket c sender amount nonce sig = .ok c') :
    c'.vault.lastTicketNonce = nonce ∧ c.vault.lastTicketNonce < nonce := by
  unfold claim_ticket at h
  split at h
  · exact absurd h (by simp)
  · split at h
    · exact absurd h (by simp)
    · split at h
      · exact absurd h (by simp)
      · split at h
        · exact absurd h (by simp)
        · split at h
          · exact absurd h (by simp)
          · split at h
            · rename_i hnonce _ _ _
              simp only [Except.ok.injEq] at h
              subst h
              exact ⟨rfl, by omega⟩
            · exact absurd h (by simp)

/-- Everything `top_up` changes in the vault's storage, and everything
it leaves alone. -/
theorem top_up_ok_effects {c : ChainState} {sender amount : Nat} {c' : ChainState}
    (h : top_up c sender amount = .ok c') :
    c'.vault.totalAmountFunded = c.vault.totalAmountFunded + amount ∧
    c'.vault.totalAmountWithdrawn = c.vault.totalAmountWithdrawn ∧
    c'.vault.lastTicketNonce = c.vault.lastTicketNonce ∧
    c'.vault.ticketSignerAddress = c.vault.ticketSignerAddress ∧
    c'.vault.toRailgunAddress = c.vault.toRailgunAddress ∧
    c'.vault.selfAddress = c.vault.selfAddress := by
  unfold top_up at h
  split at h
  · exact absurd h (by simp)
  · split at h
    · simp only [Except.ok.injEq] at h
      subst h
      exact ⟨rfl, rfl, rfl, rfl, rfl, rfl⟩
    · exact absurd h (by simp)

theorem lastTicketNonce_le_execVaultOp (c : ChainState) (op : VaultOp) :
    c.vault.lastTicketNonce ≤ (execVaultOp c op).vault.lastTicketNonce := by
  cases op with
  | topUpOp sender amount =>
    simp only [execVaultOp]
    cases h : top_up c sender amount with
    | ok c' => exact le_of_eq (top_up_ok_effects h).2.2.1.symm
    | error e => exact le_refl _
  | claimOp sender amount nonce sig =>
    simp only [execVaultOp]
    cases h : claim_ticket c sender amount nonce sig with
    | ok c' =>
      have heff := claim_ticket_ok_lastTicketNonce h
      show c.vault.lastTicketNonce ≤ c'.vault.lastTicketNonce
      omega
    | error e => exact le_refl _

theorem lastTicketNonce_le_execVaultOps (c : ChainState) (ops : List VaultOp) :
    c.vault.lastTicketNonce ≤ (execVaultOps c ops).vault.lastTicketNonce := by
  induction ops generalizing c with
  | nil => exact le_refl _
  | cons op ops ih =>
    exact (lastTicketNonce_le_execVaultOp c op).trans (ih (execVaultOp c op))

theorem claim_ticket_fails_of_nonce_le {c : ChainState} {sender amount nonce : Nat}
    {sig : Signature} (h : nonce ≤ c.vault.lastTicketNonce) :
    vaultCallOk (claim_ticket c sender amount nonce sig) = false := by
  unfold claim_ticket
  split
  · rfl
  · split
    · rfl
    · split
      · rfl
      · split
        · rfl
        · omega

/-- First-failure characterization of `verifyTicket` on a present
ticket: each rejection reason occurs exactly when its own check fails
and every earlier check passes, and acceptance occurs exactly when all
five checks pass. -/
theorem verifyTicket_characterization (cfg : ServerConfig) (st : ServerState)
    (t : ClaimableTicket) :
    (verifyTicket cfg st (some t) = .error .outdatedSequence ↔ ¬ freshEnough st t) ∧
    (verifyTicket cfg st (some t) = .error .wrongPayee ↔
      freshEnough st t ∧ ¬ payeeMatches cfg t) ∧
    (verifyTicket cfg st (some t) = .error .wrongVault ↔
      freshEnough st t ∧ payeeMatches cfg t ∧ ¬ vaultMatches cfg t) ∧
    (verifyTicket cfg st (some t) = .error .amountBelowFloor ↔
      freshEnough st t ∧ payeeMatches cfg t ∧ vaultMatches cfg t ∧ ¬ meetsFloor cfg t) ∧
    (verifyTicket cfg st (some t) = .error .badSignature ↔
      freshEnough st t ∧ payeeMatches cfg t ∧ vaultMatches cfg t ∧ meetsFloor cfg t ∧
        ¬ signatureOk cfg t) ∧
    (verifyTicket cfg st (some t) = .ok () ↔
      freshEnough st t ∧ payeeMatches cfg t ∧ vaultMatches cfg t ∧ meetsFloor cfg t ∧
        signatureOk cfg t) := by
  simp only [verifyTicket, freshEnough, payeeMatches, vaultMatches, meetsFloor, signatureOk]
  split_ifs with h1 h2 h3 h4 h5 <;> simp_all

/-- An accepted ticket's nonce is at least the cached `hostNonce`. -/
theorem verifyTicket_ok_hostNonce_le {cfg : ServerConfig} {st : ServerState}
    {t : ClaimableTicket} (h : verifyTicket cfg st (some t) = .ok ()) :
    st.hostNonce ≤ t.nonce := by
  simp only [verifyTicket] at h
  split_ifs at h with h1 h2 h3 h4 h5 <;> omega

theorem serverInv_startup (v : VaultState) : ServerInv (startupServerState v) := by
  unfold ServerInv startupServerState initServerState
  constructor
  · exact Int.natCast_nonneg _
  · exact le_refl _

theorem generateTicket_state (cfg : ServerConfig) (st : ServerState) :
    (generateTicket cfg st).2 = { st with userNonce := st.userNonce + 1 } := rfl

theorem serverInv_execServerOp (cfg : ServerConfig) (st : ServerState) (op : ServerOp)
    (h : ServerInv st) : ServerInv (execServerOp cfg st op) := by
  cases op with
  | genOp =>
    simp only [execServerOp, generateTicket_state]
    unfold ServerInv at h ⊢
    constructor
    · exact h.1
    · show st.hostNonce ≤ st.userNonce + 1
      omega
  | validateOp t => exact h
  | claimReqOp t settlementOk =>
    cases t with
    | none => exact h
    | some tk =>
      simp only [execServerOp, claimTicketHandler]
      cases hv : verifyTicket cfg st (some tk) with
      | error e => exact h
      | ok u =>
        cases settlementOk with
        | false => exact h
        | true =>
          have hle : st.hostNonce ≤ tk.nonce := verifyTicket_ok_hostNonce_le hv
          exact ⟨le_trans h.1 hle, le_refl _⟩

theorem serverInv_execServerOps (cfg : ServerConfig) (st : ServerState) (ops : List ServerOp)
    (h : ServerInv st) : ServerInv (execServerOps cfg st ops) := by
  induction ops generalizing st with
  | nil => exact h
  | cons op ops ih => exact ih (execServerOp cfg st op) (serverInv_execServerOp cfg st op h)

/-- Under the nonce invariant, a generated ticket's nonce is at least
1: the sequence-zero sentinel never appears on a signed ticket. -/
theorem one_le_generateTicket_nonce (cfg : ServerConfig) (st : ServerState)
    (h : ServerInv st) : 1 ≤ (generateTicket cfg st).1.toTicket.nonce := by
  obtain ⟨h0, h1⟩ := h
  simp only [generateTicket]
  split_ifs <;> omega

/-- The issuer state after `k` generate calls from a settled state:
`userNonce` has advanced by `k`, `hostNonce` is untouched. -/
theorem genIter_settledState (cfg : ServerConfig) (s k : Nat) :
    genIter cfg (settledState s) k = { userNonce := (s : Int) + k, hostNonce := (s : Int) } := by
  induction k with
  | zero => simp [genIter, settledState]
  | succ k ih =>
    show (generateTicket cfg (genIter cfg (settledState s) k)).2 = _
    rw [ih, generateTicket_state]
    simp only [ServerState.mk.injEq]
    refine ⟨?_, trivial⟩
    push_cast
    ring

/-- The fixed fields and the signature of every generated ticket: the
payee and vault are the configured ones, and the signature is the
signing key's signature over the issuer digest of the ticket's own
fields. -/
theorem generateTicket_fields (cfg : ServerConfig) (st : ServerState) :
    (generateTicket cfg st).1.toRailgunAddress = cfg.hostRailgunAddress ∧
    (generateTicket cfg st).1.hiddenPaymentChannelsContractAddress = cfg.hpcContractAddress ∧
    (generateTicket cfg st).1.signature = signHash cfg.signingKey
      (issuerMessageHash cfg.hostRailgunAddress (generateTicket cfg st).1.amount.toNat
        (generateTicket cfg st).1.nonce.toNat cfg.hpcContractAddress) :=
  ⟨rfl, rfl, rfl⟩

/-- The `k+1`-st ticket generated from the settled state `s` (that is,
after `k` previous generate calls with no intervening claim): its
amount is the cumulative `(k+1) * cost`, and its nonce is `s + (k+1)`
except on the very first ticket, which reuses `s` itself when `s > 0`
and is forced to `1` when `s = 0`. -/
theorem generateTicket_at_settled (cfg : ServerConfig) (s k : Nat) :
    (generateTicket cfg (genIter cfg (settledState s) k)).1.amount
        = cfg.ticketCost * (k + 1) ∧
    (generateTicket cfg (genIter cfg (settledState s) k)).1.nonce
        = if k = 0 then (if s = 0 then 1 else (s : Int)) else (s : Int) + (k + 1) := by
  rw [genIter_settledState]
  simp only [generateTicket]
  have hsub : ((s : Int) + k) - s = (k : Int) := by ring
  rw [hsub]
  cases k with
  | zero =>
    cases Nat.eq_zero_or_pos s with
    | inl hs =>
      subst hs
      norm_num
    | inr hs =>
      have hsne : s ≠ 0 := Nat.pos_iff_ne_zero.mp hs
      have hs0 : ((s : Int)) ≠ 0 := by simpa using hsne
      simp [hs0, hsne]
  | succ k =>
    simp only [Nat.cast_succ]
    have hk : ((k : Int) + 1) ≠ 0 := by omega
    rw [if_neg hk]
    have hnz : ((s : Int) + ((k : Int) + 1) + 1) ≠ 0 := by omega
    constructor
    · ring
    · rw [if_neg hnz, if_neg (Nat.succ_ne_zero k)]
      ring

theorem erc20Transfer_eq_some {tok : TokenState} {source dest amount : Nat}
    (h : amount ≤ tok.balances source) :
    erc20Transfer tok source dest amount = some
      { tok with balances := movedBal tok.balances source dest amount } := by
  unfold erc20Transfer
  rw [if_pos h]
  rfl

/-- The call `claim_ticket` succeeds exactly when the signature recovers to the
ticket signer, the caller is the hardcoded railgun adapt address, the
amount is covered by the vault's WETH balance, and the nonce is
strictly fresh (assuming the withdrawal counter cannot overflow). -/
theorem claim_ticket_ok_iff (c : ChainState) (sender amount nonce : Nat) (sig : Signature)
    (hov : c.vault.totalAmountWithdrawn + amount < UINT256_MOD) :
    vaultCallOk (claim_ticket c sender amount nonce sig) = true ↔
      (verify_signature c.vault amount nonce sig = true ∧
       sender = RAILGUN_ADAPT_ADDRESS ∧
       amount ≤ c.weth.balances c.vault.selfAddress ∧
       c.vault.lastTicketNonce < nonce) := by
  unfold claim_ticket
  split_ifs with h1 h2 h3 h4 <;>
    simp_all [vaultCallOk, erc20Transfer_eq_some]

/-- Everything a successful `claim_ticket` changes, and everything it
leaves alone. -/
theorem claim_ticket_ok_effects {c : ChainState} {sender amount nonce : Nat}
    {sig : Signature} {c' : ChainState}
    (h : claim_ticket c sender amount nonce sig = .ok c') :
    c'.vault.totalAmountWithdrawn = c.vault.totalAmountWithdrawn + amount ∧
    c'.vault.lastTicketNonce = nonce ∧
    c'.vault.totalAmountFunded = c.vault.totalAmountFunded ∧
    c'.vault.ticketSignerAddress = c.vault.ticketSignerAddress ∧
    c'.vault.toRailgunAddress = c.vault.toRailgunAddress ∧
    c'.vault.selfAddress = c.vault.selfAddress ∧
    (sender ≠ c.vault.selfAddress →
      c'.weth.balances sender = c.weth.balances sender + amount ∧
      c'.weth.balances c.vault.selfAddress = c.weth.balances c.vault.selfAddress - amount) := by
  unfold claim_ticket at h
  split at h
  · exact absurd h (by simp)
  · split at h
    · exact absurd h (by simp)
    · split at h
      · exact absurd h (by simp)
      · split at h
        · exact absurd h (by simp)
        · rename_i h1 h2 h3 h4
          split at h
          · exact absurd h (by simp)
          · rename_i weth' hw
            split at h
            · simp only [Except.ok.injEq] at h
              subst h
              rw [erc20Transfer_eq_some (by omega)] at hw
              simp only [Option.some.injEq] at hw
              subst hw
              refine ⟨rfl, rfl, rfl, rfl, rfl, rfl, ?_⟩
              intro hne
              constructor
              · simp [movedBal, setBal, hne]
              · simp [movedBal, setBal, hne, hne.symm]
            · exact absurd h (by simp)

/-- The precise revert reason when a well-signed, well-funded,
correctly-sent claim reuses a stale nonce. -/
theorem claim_ticket_invalid_nonce {c : ChainState} {sender amount nonce : Nat} {sig : Signature}
    (hsig : verify_signature c.vault amount nonce sig = true)
    (hsender : sender = RAILGUN_ADAPT_ADDRESS)
    (hbal : amount ≤ c.weth.balances c.vault.selfAddress)
    (hn : nonce ≤ c.vault.lastTicketNonce) :
    claim_ticket c sender amount nonce sig = .error .invalidNonce := by
  unfold claim_ticket
  rw [if_neg (by simp [hsig]), if_neg (by simp [hsender]), if_neg (by simp [hbal]),
    if_pos (by omega)]

theorem top_up_error_of_transfer_none {c : ChainState} {sender amount : Nat}
    (h : erc20TransferFrom c.weth c.vault.selfAddress sender c.vault.selfAddress amount = none) :
    top_up c sender amount = .error .transferFailed := by
  unfold top_up
  rw [h]

theorem execVaultOp_topUp_error {c : ChainState} {sender amount : Nat} {e : VaultError}
    (h : top_up c sender amount = .error e) :
    execVaultOp c (.topUpOp sender amount) = c := by
  simp only [execVaultOp]
  rw [h]

theorem execVaultOp_claim_not_ok {c : ChainState} {sender amount nonce : Nat} {sig : Signature}
    (h : vaultCallOk (claim_ticket c sender amount nonce sig) = false) :
    execVaultOp c (.claimOp sender amount nonce sig) = c := by
  simp only [execVaultOp]
  cases hc : claim_ticket c sender amount nonce sig with
  | ok c' => rw [hc] at h; exact absurd h (by simp [vaultCallOk])
  | error e => rfl

/-! ## The claims -/

/-- C1, counterexample: the vault accepts sequence 3 (the claim of
`exTicket3` succeeds and stores `lastTicketNonce = 3`), the service
observes it (the claim handler sets both cached nonces to 3), and yet
the Validator still accepts the very same ticket with sequence
`3 ≤ 3`: `verifyTicket` only rejects sequences strictly below its
cached `hostNonce`, so "every ticket with sequence <= N is rejected by
the Validator" is false at this input. -/
theorem C1_counterexample :
    claimResultNonce (claim_ticket exChain RAILGUN_ADAPT_ADDRESS 900 3 exTicket3.signature)
      = some 3 ∧
    claimTicketHandler exCfg (genIter exCfg (settledState 0) 3) (some exTicket3) true
      = (.ok, settledState 3) ∧
    exTicket3.nonce = 3 ∧
    verifyTicket exCfg (settledState 3) (some exTicket3) = .ok () :=
  ⟨rfl, rfl, rfl, rfl⟩

/-- C1 (amended): `lastTicketNonce` is non-decreasing over any
sequence of vault entry-point invocations, and a claim whose sequence
is at most the current `lastTicketNonce` always reverts — so once
`claim` accepts sequence `N`, any second claim attempt with
`sequence ≤ N` is permanently rejected. The Validator, however,
rejects as outdated exactly the tickets with sequence strictly below
its cached `hostNonce`: a ticket with sequence equal to the last
accepted one still passes its sequence check. -/
theorem C1_sequence_monotonicity_amended :
    (∀ (c : ChainState) (ops : List VaultOp),
      c.vault.lastTicketNonce ≤ (execVaultOps c ops).vault.lastTicketNonce) ∧
    (∀ (c : ChainState) (sender amount nonce : Nat) (sig : Signature),
      nonce ≤ c.vault.lastTicketNonce →
      vaultCallOk (claim_ticket c sender amount nonce sig) = false) ∧
    (∀ (cfg : ServerConfig) (st : ServerState) (t : ClaimableTicket),
      verifyTicket cfg st (some t) = .error .outdatedSequence ↔ t.nonce < st.hostNonce) := by
  refine ⟨lastTicketNonce_le_execVaultOps, ?_, ?_⟩
  · intro c sender amount nonce sig h
    exact claim_ticket_fails_of_nonce_le h
  · intro cfg st t
    have hc := (verifyTicket_characterization cfg st t).1
    unfold freshEnough at hc
    simpa using hc

/-- C1, witness: the amended theorem applied at the concrete
deployment, right after sequence 3 has been claimed. -/
theorem C1_sequence_monotonicity_amended_witness :
    exChain.vault.lastTicketNonce
      ≤ (execVaultOps exChain
          [.claimOp RAILGUN_ADAPT_ADDRESS 900 3 exTicket3.signature]).vault.lastTicketNonce ∧
    vaultCallOk
      (claim_ticket exChainAfterClaim RAILGUN_ADAPT_ADDRESS 900 3 exTicket3.signature) = false ∧
    (verifyTicket exCfg (settledState 3) (some exTicket3) = .error .outdatedSequence ↔
      exTicket3.nonce < (settledState 3).hostNonce) :=
  ⟨C1_sequence_monotonicity_amended.1 exChain
      [.claimOp RAILGUN_ADAPT_ADDRESS 900 3 exTicket3.signature],
   C1_sequence_monotonicity_amended.2.1 exChainAfterClaim RAILGUN_ADAPT_ADDRESS 900 3
      exTicket3.signature (by decide),
   C1_sequence_monotonicity_amended.2.2 exCfg (settledState 3) exTicket3⟩

/-- C2, counterexample: with settled sequence `s = 3` and `k = 1`
(first ticket generated after the acceptance, cost 300), the generated
ticket's amount is `1 * 300` as the claim says, but its sequence is
`3`, not `s + k = 4`: the first ticket after a nonzero settlement
reuses the settled sequence. -/
theorem C2_counterexample :
    (generateTicket exCfg (settledState 3)).1.amount = 300 * 1 ∧
    (generateTicket exCfg (settledState 3)).1.nonce = 3 ∧
    (generateTicket exCfg (settledState 3)).1.nonce ≠ 3 + 1 :=
  ⟨rfl, rfl, by decide⟩

/-- C2 (amended): for every settled sequence `s` and every `k ≥ 1`,
the `k`-th ticket produced by `generate` since the last acceptance
with per-request cost `c` has `amount = k * c`; its sequence is
`s + k` for every `k ≥ 2`, while the first ticket (`k = 1`) has
sequence `1` when `s = 0` and reuses sequence `s` itself when
`s > 0`. -/
theorem C2_cumulative_formula_amended (cfg : ServerConfig) (s k : Nat) (hk : 1 ≤ k) :
    (generateTicket cfg (genIter cfg (settledState s) (k - 1))).1.amount
      = cfg.ticketCost * k ∧
    (generateTicket cfg (genIter cfg (settledState s) (k - 1))).1.nonce
      = (if k = 1 then (if s = 0 then 1 else (s : Int)) else (s : Int) + k) := by
  obtain ⟨k, rfl⟩ : ∃ j, k = j + 1 := ⟨k - 1, by omega⟩
  have h := generateTicket_at_settled cfg s k
  simp only [Nat.add_sub_cancel]
  refine ⟨?_, ?_⟩
  · rw [h.1]
    push_cast
    ring
  · rw [h.2]
    by_cases hk0 : k = 0
    · subst hk0
      norm_num
    · rw [if_neg hk0, if_neg (by omega : ¬ k + 1 = 1)]
      push_cast
      ring

/-- C2, witness: the amended theorem at `s = 0`, `k = 3`, cost 300:
the third ticket has amount 900 and sequence 3. -/
theorem C2_cumulative_formula_amended_witness :
    (generateTicket exCfg (genIter exCfg (settledState 0) (3 - 1))).1.amount
      = exCfg.ticketCost * 3 ∧
    (generateTicket exCfg (genIter exCfg (settledState 0) (3 - 1))).1.nonce
      = (if 3 = 1 then (if 0 = 0 then 1 else ((0 : Nat) : Int)) else ((0 : Nat) : Int) + 3) :=
  C2_cumulative_formula_amended exCfg 0 3 (by decide)

/-- C3: `claim_ticket(amount, nonce, signature)` succeeds if and only
if the recovered signer of the recomputed digest is the authorized
signer, the caller is the single authorized claimant
(`RAILGUN_ADAPT_ADDRESS`), the amount is within the vault's current
WETH balance, and the nonce is strictly above `lastTicketNonce`
(given that the withdrawal counter cannot overflow uint256). On
success it pays `amount` to the caller, adds it to
`totalAmountWithdrawn` and stores the nonce; on any failure the whole
call reverts and the chain state is unchanged. -/
theorem C3_claim_success_iff_and_effects :
    (∀ (c : ChainState) (sender amount nonce : Nat) (sig : Signature),
      c.vault.totalAmountWithdrawn + amount < UINT256_MOD →
      (vaultCallOk (claim_ticket c sender amount nonce sig) = true ↔
        (verify_signature c.vault amount nonce sig = true ∧
         sender = RAILGUN_ADAPT_ADDRESS ∧
         amount ≤ c.weth.balances c.vault.selfAddress ∧
         c.vault.lastTicketNonce < nonce))) ∧
    (∀ (c : ChainState) (sender amount nonce : Nat) (sig : Signature) (c' : ChainState),
      claim_ticket c sender amount nonce sig = .ok c' →
      c'.vault.totalAmountWithdrawn = c.vault.totalAmountWithdrawn + amount ∧
      c'.vault.lastTicketNonce = nonce ∧
      c'.vault.totalAmountFunded = c.vault.totalAmountFunded ∧
      (sender ≠ c.vault.selfAddress →
        c'.weth.balances sender = c.weth.balances sender + amount)) ∧
    (∀ (c : ChainState) (sender amount nonce : Nat) (sig : Signature),
      vaultCallOk (claim_ticket c sender amount nonce sig) = false →
      execVaultOp c (.claimOp sender amount nonce sig) = c) := by
  refine ⟨claim_ticket_ok_iff, ?_, ?_⟩
  · intro c sender amount nonce sig c' h
    obtain ⟨hw, hn, hf, _, _, _, hbal⟩ := claim_ticket_ok_effects h
    exact ⟨hw, hn, hf, fun hne => (hbal hne).1⟩
  · intro c sender amount nonce sig h
    exact execVaultOp_claim_not_ok h

/-- C3, witness: the success condition and the effects at the concrete
deployment (claiming ticket 3) and a concrete failing claim (stale
nonce 0). -/
theorem C3_claim_success_iff_and_effects_witness :
    (vaultCallOk (claim_ticket exChain RAILGUN_ADAPT_ADDRESS 900 3 exTicket3.signature) = true ↔
      (verify_signature exChain.vault 900 3 exTicket3.signature = true ∧
       RAILGUN_ADAPT_ADDRESS = RAILGUN_ADAPT_ADDRESS ∧
       900 ≤ exChain.weth.balances exChain.vault.selfAddress ∧
       exChain.vault.lastTicketNonce < 3)) ∧
    (exChainAfterClaim.vault.totalAmountWithdrawn
        = exChain.vault.totalAmountWithdrawn + 900 ∧
      exChainAfterClaim.vault.lastTicketNonce = 3 ∧
      exChainAfterClaim.vault.totalAmountFunded = exChain.vault.totalAmountFunded ∧
      (RAILGUN_ADAPT_ADDRESS ≠ exChain.vault.selfAddress →
        exChainAfterClaim.weth.balances RAILGUN_ADAPT_ADDRESS
          = exChain.weth.balances RAILGUN_ADAPT_ADDRESS + 900)) ∧
    execVaultOp exChain (.claimOp RAILGUN_ADAPT_ADDRESS 900 0 exTicket3.signature) = exChain :=
  ⟨C3_claim_success_iff_and_effects.1 exChain RAILGUN_ADAPT_ADDRESS 900 3 exTicket3.signature
      (by decide),
   C3_claim_success_iff_and_effects.2.1 exChain RAILGUN_ADAPT_ADDRESS 900 3 exTicket3.signature
      exChainAfterClaim rfl,
   C3_claim_success_iff_and_effects.2.2 exChain RAILGUN_ADAPT_ADDRESS 900 0 exTicket3.signature
      (by decide)⟩

/-- C4: the issuer's signing digest, the validator's verification
digest and the vault's `verify_signature` digest are the same function
of `(payee, amount, sequence, vaultId)`; every ticket produced by
`generate` carries a signature that recovers to the configured signer
under that digest; and a signature over one field tuple never recovers
to the signer under the digest of a different (in-range) tuple. -/
theorem C4_hash_agreement_and_signature_binding :
    (∀ (p : String) (a n v : Nat),
      issuerMessageHash p a n v = validatorMessageHash p a n v ∧
      validatorMessageHash p a n v = contractMessageHash p a n v) ∧
    (∀ (cfg : ServerConfig) (st : ServerState),
      recoverAddress
        (contractMessageHash cfg.hostRailgunAddress
          (generateTicket cfg st).1.amount.toNat (generateTicket cfg st).1.nonce.toNat
          cfg.hpcContractAddress)
        (generateTicket cfg st).1.signature = signerAddress cfg) ∧
    (∀ (key : Nat) (p p' : String) (a n v a' n' v' : Nat),
      a < 2 ^ 256 → n < 2 ^ 256 → v < 2 ^ 160 →
      a' < 2 ^ 256 → n' < 2 ^ 256 → v' < 2 ^ 160 →
      (p, a, n, v) ≠ (p', a', n', v') →
      recoverAddress (contractMessageHash p' a' n' v')
        (signHash key (issuerMessageHash p a n v)) ≠ addressOfKey key) := by
  refine ⟨fun p a n v => ⟨rfl, rfl⟩, ?_, ?_⟩
  · intro cfg st
    exact recoverAddress_signHash cfg.signingKey _
  · intro key p p' a n v a' n' v' ha hn hv ha' hn' hv' hne
    apply recoverAddress_ne_of_hash_ne
    intro hhash
    apply hne
    obtain ⟨hp, ha0, hn0, hv0⟩ := contractMessageHash_inj ha hn hv ha' hn' hv' hhash
    simp [hp, ha0, hn0, hv0]

/-- C4, witness: at the concrete deployment, the generated third
ticket's signature recovers to the signer, and altering the amount
from 900 to 901 makes recovery fail. -/
theorem C4_hash_agreement_and_signature_binding_witness :
    (issuerMessageHash exHostAddress 900 3 0xabc1
        = validatorMessageHash exHostAddress 900 3 0xabc1 ∧
      validatorMessageHash exHostAddress 900 3 0xabc1
        = contractMessageHash exHostAddress 900 3 0xabc1) ∧
    recoverAddress
      (contractMessageHash exCfg.hostRailgunAddress
        (generateTicket exCfg (genIter exCfg (settledState 0) 2)).1.amount.toNat
        (generateTicket exCfg (genIter exCfg (settledState 0) 2)).1.nonce.toNat
        exCfg.hpcContractAddress)
      (generateTicket exCfg (genIter exCfg (settledState 0) 2)).1.signature
      = signerAddress exCfg ∧
    recoverAddress (contractMessageHash exHostAddress 901 3 0xabc1)
      (signHash 5 (issuerMessageHash exHostAddress 900 3 0xabc1)) ≠ addressOfKey 5 :=
  ⟨C4_hash_agreement_and_signature_binding.1 exHostAddress 900 3 0xabc1,
   C4_hash_agreement_and_signature_binding.2.1 exCfg (genIter exCfg (settledState 0) 2),
   C4_hash_agreement_and_signature_binding.2.2 5 exHostAddress exHostAddress 900 3 0xabc1
      901 3 0xabc1 (by norm_num) (by norm_num) (by norm_num) (by norm_num) (by norm_num)
      (by norm_num) (by decide)⟩

/-- C5, counterexample: a ticket whose sequence equals the cached
watermark (`3 ≤ 3`) but whose payee is wrong is rejected as
`WrongPayee`, not as `OutdatedSequence` as the claim's
`sequence <= watermark` condition predicts: the code's outdatedness
test is strict (`nonce < hostNonce`). -/
theorem C5_counterexample :
    exWrongPayeeTicket.nonce ≤ (settledState 3).hostNonce ∧
    verifyTicket exCfg (settledState 3) (some exWrongPayeeTicket) = .error .wrongPayee ∧
    verifyTicket exCfg (settledState 3) (some exWrongPayeeTicket) ≠ .error .outdatedSequence :=
  ⟨by decide, rfl, by decide⟩

/-- C5 (amended): `verifyTicket` evaluates its checks in exactly the
order MissingTicket → OutdatedSequence → WrongPayee → WrongVault →
AmountBelowFloor → BadSignature and reports the first failing one,
where the outdatedness condition is the strict `sequence < watermark`
(not `sequence <= watermark`); the floor check compares only
`amount < costPerRequest`, so any amount at or above the cost passes
it. -/
theorem C5_verify_first_failure_amended :
    (∀ (cfg : ServerConfig) (st : ServerState),
      verifyTicket cfg st none = .error .missingTicket) ∧
    (∀ (cfg : ServerConfig) (st : ServerState) (t : ClaimableTicket),
      (verifyTicket cfg st (some t) = .error .outdatedSequence ↔
        t.nonce < st.hostNonce) ∧
      (verifyTicket cfg st (some t) = .error .wrongPayee ↔
        freshEnough st t ∧ ¬ payeeMatches cfg t) ∧
      (verifyTicket cfg st (some t) = .error .wrongVault ↔
        freshEnough st t ∧ payeeMatches cfg t ∧ ¬ vaultMatches cfg t) ∧
      (verifyTicket cfg st (some t) = .error .amountBelowFloor ↔
        freshEnough st t ∧ payeeMatches cfg t ∧ vaultMatches cfg t ∧
          t.amount < cfg.ticketCost) ∧
      (verifyTicket cfg st (some t) = .error .badSignature ↔
        freshEnough st t ∧ payeeMatches cfg t ∧ vaultMatches cfg t ∧ meetsFloor cfg t ∧
          ¬ signatureOk cfg t) ∧
      (verifyTicket cfg st (some t) = .ok () ↔
        freshEnough st t ∧ payeeMatches cfg t ∧ vaultMatches cfg t ∧ meetsFloor cfg t ∧
          signatureOk cfg t)) ∧
    (∀ (cfg : ServerConfig) (t : ClaimableTicket),
      meetsFloor cfg t ↔ cfg.ticketCost ≤ t.amount) := by
  refine ⟨fun cfg st => rfl, ?_, ?_⟩
  · intro cfg st t
    obtain ⟨h1, h2, h3, h4, h5, h6⟩ := verifyTicket_characterization cfg st t
    refine ⟨?_, h2, h3, ?_, h5, h6⟩
    · unfold freshEnough at h1
      simpa using h1
    · unfold meetsFloor at h4
      simpa using h4
  · intro cfg t
    unfold meetsFloor
    omega

/-- C5, witness: the characterization at concrete tickets; in
particular a ticket with amount 350 and cost 300 passes the floor
check and one with amount 299 fails it. -/
theorem C5_verify_first_failure_amended_witness :
    verifyTicket exCfg (settledState 0) none = .error .missingTicket ∧
    (verifyTicket exCfg (settledState 3) (some exWrongPayeeTicket) = .error .wrongPayee ↔
      freshEnough (settledState 3) exWrongPayeeTicket ∧
        ¬ payeeMatches exCfg exWrongPayeeTicket) ∧
    (meetsFloor exCfg { exTicket3 with amount := 350 } ↔
      exCfg.ticketCost ≤ (350 : Int)) ∧
    (meetsFloor exCfg { exTicket3 with amount := 299 } ↔
      exCfg.ticketCost ≤ (299 : Int)) :=
  ⟨(C5_verify_first_failure_amended.1 exCfg (settledState 0)),
   (C5_verify_first_failure_amended.2.1 exCfg (settledState 3) exWrongPayeeTicket).2.1,
   C5_verify_first_failure_amended.2.2 exCfg { exTicket3 with amount := 350 },
   C5_verify_first_failure_amended.2.2 exCfg { exTicket3 with amount := 299 }⟩

/-- C6, counterexample: a valid ticket is accepted by the validate
handler, the module state is completely unchanged (no watermark
advances), and presenting the very same ticket again before any
settlement is accepted again — contradicting the claimed
watermark-on-acceptance side effect whose purpose is to reject such a
replay. -/
theorem C6_counterexample :
    validateTicketHandler exCfg (genIter exCfg (settledState 0) 3) (some exTicket3)
      = (.ok (), genIter exCfg (settledState 0) 3) ∧
    validateTicketHandler exCfg
        ((validateTicketHandler exCfg (genIter exCfg (settledState 0) 3) (some exTicket3)).2)
        (some exTicket3)
      = (.ok (), genIter exCfg (settledState 0) 3) :=
  ⟨rfl, rfl⟩

/-- C6 (amended): the Validator's verify is a pure function of the
cached `hostNonce` plus the fixed vault and signer identities, and the
validate handler has no side effect at all — it maintains no
watermark, so validating a ticket never changes the module state and
a replay of the same ticket before settlement is answered identically
(in particular, re-accepted). -/
theorem C6_validator_no_side_effect_amended :
    (∀ (cfg : ServerConfig) (st : ServerState) (t : Option ClaimableTicket),
      (validateTicketHandler cfg st t).2 = st) ∧
    (∀ (cfg : ServerConfig) (st : ServerState) (t : Option ClaimableTicket),
      validateTicketHandler cfg ((validateTicketHandler cfg st t).2) t
        = validateTicketHandler cfg st t) ∧
    (∀ (cfg : ServerConfig) (st : ServerState) (t : Option ClaimableTicket),
      (validateTicketHandler cfg st t).1 = verifyTicket cfg st t) :=
  ⟨fun _ _ _ => rfl, fun _ _ _ => rfl, fun _ _ _ => rfl⟩

/-- C7: whenever the claim handler's settlement succeeds, both cached
nonces (`userNonce` and `hostNonce`) are set to exactly the claimed
ticket's nonce; whenever it fails (validation rejection, settlement
failure, or missing ticket) the cached nonces are unchanged; and at
startup both caches are initialized from the vault's on-chain
`lastTicketNonce`, never assumed zero. -/
theorem C7_cache_reconciliation :
    (∀ (cfg : ServerConfig) (st : ServerState) (tk : ClaimableTicket) (settlementOk : Bool)
        (r : ClaimResponse) (st' : ServerState),
      claimTicketHandler cfg st (some tk) settlementOk = (r, st') →
      (r = .ok → st'.userNonce = tk.nonce ∧ st'.hostNonce = tk.nonce) ∧
      (r ≠ .ok → st' = st)) ∧
    (∀ (cfg : ServerConfig) (st : ServerState) (settlementOk : Bool)
        (r : ClaimResponse) (st' : ServerState),
      claimTicketHandler cfg st none settlementOk = (r, st') → st' = st) ∧
    (∀ (v : VaultState),
      (startupServerState v).userNonce = (v.lastTicketNonce : Int) ∧
      (startupServerState v).hostNonce = (v.lastTicketNonce : Int)) := by
  refine ⟨?_, ?_, fun v => ⟨rfl, rfl⟩⟩
  · intro cfg st tk settlementOk r st' h
    simp only [claimTicketHandler] at h
    cases hv : verifyTicket cfg st (some tk) with
    | error e =>
      rw [hv] at h
      simp only [Prod.mk.injEq] at h
      obtain ⟨hr, hst⟩ := h
      subst hr
      subst hst
      exact ⟨fun hok => absurd hok (by simp), fun _ => rfl⟩
    | ok u =>
      rw [hv] at h
      cases settlementOk with
      | true =>
        rw [if_pos rfl] at h
        simp only [Prod.mk.injEq] at h
        obtain ⟨hr, hst⟩ := h
        subst hr
        subst hst
        exact ⟨fun _ => ⟨rfl, rfl⟩, fun hne => absurd rfl hne⟩
      | false =>
        rw [if_neg (by simp)] at h
        simp only [Prod.mk.injEq] at h
        obtain ⟨hr, hst⟩ := h
        subst hr
        subst hst
        exact ⟨fun hok => absurd hok (by simp), fun _ => rfl⟩
  · intro cfg st settlementOk r st' h
    simp only [claimTicketHandler] at h
    simp only [Prod.mk.injEq] at h
    exact h.2.symm

/-- C7, witness: the handler at the concrete deployment — a
successful settlement of ticket 3 sets both caches to 3; a failed
settlement of the same ticket leaves the caches at their previous
values; startup from the example vault initializes both caches to its
`lastTicketNonce`. -/
theorem C7_cache_reconciliation_witness :
    ((ClaimResponse.ok = .ok →
        (settledState 3).userNonce = exTicket3.nonce ∧
        (settledState 3).hostNonce = exTicket3.nonce) ∧
      (ClaimResponse.ok ≠ .ok → settledState 3 = genIter exCfg (settledState 0) 3)) ∧
    ((ClaimResponse.settlementFailed = .ok →
        (genIter exCfg (settledState 0) 3).userNonce = exTicket3.nonce ∧
        (genIter exCfg (settledState 0) 3).hostNonce = exTicket3.nonce) ∧
      (ClaimResponse.settlementFailed ≠ .ok →
        genIter exCfg (settledState 0) 3 = genIter exCfg (settledState 0) 3)) ∧
    ((startupServerState exVault).userNonce = (exVault.lastTicketNonce : Int) ∧
      (startupServerState exVault).hostNonce = (exVault.lastTicketNonce : Int)) :=
  ⟨C7_cache_reconciliation.1 exCfg (genIter exCfg (settledState 0) 3) exTicket3 true
      .ok (settledState 3) rfl,
   C7_cache_reconciliation.1 exCfg (genIter exCfg (settledState 0) 3) exTicket3 false
      .settlementFailed (genIter exCfg (settledState 0) 3) rfl,
   C7_cache_reconciliation.2.2 exVault⟩

/-- C8: from any startup state (both caches initialized from the
vault's `lastTicketNonce`) and after any sequence of served requests,
a generated ticket's sequence is at least 1 — sequence 0 never
appears on a signed ticket; in particular, when `lastTicketNonce = 0`
and nothing has been issued, the first generated ticket has sequence
exactly 1. -/
theorem C8_sequence_sentinel :
    (∀ (cfg : ServerConfig) (v : VaultState) (ops : List ServerOp),
      1 ≤ (generateTicket cfg (execServerOps cfg (startupServerState v) ops)).1.nonce) ∧
    (∀ (cfg : ServerConfig) (v : VaultState),
      v.lastTicketNonce = 0 →
      (generateTicket cfg (startupServerState v)).1.nonce = 1) := by
  constructor
  · intro cfg v ops
    exact one_le_generateTicket_nonce cfg _
      (serverInv_execServerOps cfg (startupServerState v) ops (serverInv_startup v))
  · intro cfg v h
    have hst : startupServerState v = settledState 0 := by
      unfold startupServerState initServerState settledState
      rw [h]
    rw [hst]
    have := (generateTicket_at_settled cfg 0 0).2
    simpa using this

/-- C8, witness: the sentinel at the concrete deployment — after
three requests the next ticket's sequence is positive, and the first
ticket from the fresh vault has sequence 1. -/
theorem C8_sequence_sentinel_witness :
    1 ≤ (generateTicket exCfg
          (execServerOps exCfg (startupServerState exVault) [.genOp, .genOp, .genOp])).1.nonce ∧
    (generateTicket exCfg (startupServerState exVault)).1.nonce = 1 :=
  ⟨C8_sequence_sentinel.1 exCfg exVault [.genOp, .genOp, .genOp],
   C8_sequence_sentinel.2 exCfg exVault rfl⟩

/-- C9: the spec's end-to-end scenario at cost 300 and settled
sequence 0 — three sequential generates yield (1,300), (2,600),
(3,900); claiming the third ticket succeeds and stores
`lastTicketNonce = 3`; and from then on, in every reachable chain
state, a claim with sequence ≤ 3 fails — with the nonce revert
(`"invalid nonce"`, the `SequenceNotMonotonic` error) whenever the
signature, caller and balance checks pass. -/
theorem C9_scenario :
    exCfg.ticketCost = 300 ∧
    exTicket1.nonce = 1 ∧ exTicket1.amount = 300 ∧
    exTicket2.nonce = 2 ∧ exTicket2.amount = 600 ∧
    exTicket3.nonce = 3 ∧ exTicket3.amount = 900 ∧
    claimResultNonce (claim_ticket exChain RAILGUN_ADAPT_ADDRESS 900 3 exTicket3.signature)
      = some 3 ∧
    (∀ (ops : List VaultOp) (sender amount nonce : Nat) (sig : Signature),
      nonce ≤ 3 →
      vaultCallOk
        (claim_ticket (execVaultOps exChainAfterClaim ops) sender amount nonce sig) = false) ∧
    (∀ (ops : List VaultOp) (sender amount nonce : Nat) (sig : Signature),
      nonce ≤ 3 →
      verify_signature (execVaultOps exChainAfterClaim ops).vault amount nonce sig = true →
      sender = RAILGUN_ADAPT_ADDRESS →
      amount ≤ (execVaultOps exChainAfterClaim ops).weth.balances
        (execVaultOps exChainAfterClaim ops).vault.selfAddress →
      claim_ticket (execVaultOps exChainAfterClaim ops) sender amount nonce sig
        = .error .invalidNonce) := by
  refine ⟨rfl, rfl, rfl, rfl, rfl, rfl, rfl, rfl, ?_, ?_⟩
  · intro ops sender amount nonce sig hn
    have h3 : exChainAfterClaim.vault.lastTicketNonce = 3 := rfl
    have hmono := lastTicketNonce_le_execVaultOps exChainAfterClaim ops
    exact claim_ticket_fails_of_nonce_le (by omega)
  · intro ops sender amount nonce sig hn hsig hsender hbal
    have h3 : exChainAfterClaim.vault.lastTicketNonce = 3 := rfl
    have hmono := lastTicketNonce_le_execVaultOps exChainAfterClaim ops
    exact claim_ticket_invalid_nonce hsig hsender hbal (by omega)

/-- C9, witness: the quantified tail of the scenario instantiated in
the state right after the claim (no further operations), replaying
the claimed ticket itself. -/
theorem C9_scenario_witness :
    vaultCallOk
      (claim_ticket (execVaultOps exChainAfterClaim []) RAILGUN_ADAPT_ADDRESS 900 3
        exTicket3.signature) = false ∧
    claim_ticket (execVaultOps exChainAfterClaim []) RAILGUN_ADAPT_ADDRESS 50 2
        (signHash exCfg.signingKey (issuerMessageHash exHostAddress 50 2 0xabc1))
      = .error .invalidNonce :=
  ⟨C9_scenario.2.2.2.2.2.2.2.2.1 [] RAILGUN_ADAPT_ADDRESS 900 3 exTicket3.signature
      (by decide),
   C9_scenario.2.2.2.2.2.2.2.2.2 [] RAILGUN_ADAPT_ADDRESS 50 2
      (signHash exCfg.signingKey (issuerMessageHash exHostAddress 50 2 0xabc1))
      (by decide) (by decide) rfl (by decide)⟩

/-- C10: a successful `top_up(amount)` increases `totalAmountFunded`
by exactly `amount` and leaves `totalAmountWithdrawn`,
`lastTicketNonce`, `ticketSignerAddress` and `toRailgunAddress`
unchanged; if the WETH `transferFrom` from the caller fails, the call
reverts with `"transfer failed"` and the whole chain state (in
particular `totalAmountFunded`) is unchanged. -/
theorem C10_top_up_frame :
    (∀ (c : ChainState) (sender amount : Nat) (c' : ChainState),
      top_up c sender amount = .ok c' →
      c'.vault.totalAmountFunded = c.vault.totalAmountFunded + amount ∧
      c'.vault.totalAmountWithdrawn = c.vault.totalAmountWithdrawn ∧
      c'.vault.lastTicketNonce = c.vault.lastTicketNonce ∧
      c'.vault.ticketSignerAddress = c.vault.ticketSignerAddress ∧
      c'.vault.toRailgunAddress = c.vault.toRailgunAddress) ∧
    (∀ (c : ChainState) (sender amount : Nat),
      erc20TransferFrom c.weth c.vault.selfAddress sender c.vault.selfAddress amount = none →
      top_up c sender amount = .error .transferFailed ∧
      execVaultOp c (.topUpOp sender amount) = c) := by
  constructor
  · intro c sender amount c' h
    obtain ⟨h1, h2, h3, h4, h5, _⟩ := top_up_ok_effects h
    exact ⟨h1, h2, h3, h4, h5⟩
  · intro c sender amount h
    have herr := top_up_error_of_transfer_none h
    exact ⟨herr, execVaultOp_topUp_error herr⟩

/-- C10, witness: a concrete successful `top_up(200)` with its frame
conditions, and a concrete failing one (caller without balance or
allowance) that reverts leaving the chain unchanged. -/
theorem C10_top_up_frame_witness :
    (exChainToppedUp.vault.totalAmountFunded
        = exChainApproved.vault.totalAmountFunded + 200 ∧
      exChainToppedUp.vault.totalAmountWithdrawn
        = exChainApproved.vault.totalAmountWithdrawn ∧
      exChainToppedUp.vault.lastTicketNonce = exChainApproved.vault.lastTicketNonce ∧
      exChainToppedUp.vault.ticketSignerAddress = exChainApproved.vault.ticketSignerAddress ∧
      exChainToppedUp.vault.toRailgunAddress = exChainApproved.vault.toRailgunAddress) ∧
    (top_up exChain 0x55 1 = .error .transferFailed ∧
      execVaultOp exChain (.topUpOp 0x55 1) = exChain) :=
  ⟨C10_top_up_frame.1 exChainApproved 0x55 200 exChainToppedUp rfl,
   C10_top_up_frame.2 exChain 0x55 1 rfl⟩
